import Mathlib

/-!
Verification of the SVG-glyph-insertion utility (`main.py`).

The script's float arithmetic is embedded over `ℚ` (all operations involved
are exact rational operations on decimal literals), strings over `List Char`,
and the font container as an explicit immutable record threaded through the
per-request processing loop.  External library calls (file reading, XML
parsing via `SVGPath.fromstring`, outline drawing via `svg_path.draw`) are
abstracted by outcome fields on the request record; an `Except.ok` result of
the batch function models the output font file being written, while
`Except.error` models the run aborting with no file written.
-/

/-- Truncation toward zero, the behaviour of Python's `int()` on a float. -/
def pyInt (q : ℚ) : ℤ := if 0 ≤ q then ⌊q⌋ else ⌈q⌉

/-- Single-quote character, used by the viewBox attribute scan. -/
def squote : Char := Char.ofNat 39

/-- Characters matched by the quote class in the regex `viewBox=["\x27]([^"\x27]+)["\x27]`. -/
def isQuoteChar (c : Char) : Bool := c == '"' || c == squote

/-- Attempt to match the regex `viewBox=["\x27]([^"\x27]+)["\x27]` at the head of the
text, returning the captured attribute content on success (from
`get_svg_viewbox`, `main.py` line 23). -/
def matchViewboxAt : List Char → Option (List Char)
  | 'v' :: 'i' :: 'e' :: 'w' :: 'B' :: 'o' :: 'x' :: '=' :: q :: rest =>
    if isQuoteChar q then
      let content := rest.takeWhile (fun c => !(isQuoteChar c))
      let rest2 := rest.dropWhile (fun c => !(isQuoteChar c))
      if content ≠ [] ∧ rest2 ≠ [] then some content else none
    else none
  | _ => none

/-- Leftmost regex search for the viewBox attribute: `re.search` scans left to
right and returns the first position where the pattern matches. -/
def searchViewbox : List Char → Option (List Char)
  | [] => none
  | c :: rest =>
    match matchViewboxAt (c :: rest) with
    | some content => some content
    | none => searchViewbox rest

/-- Whitespace characters recognised by Python's `str.split()` (ASCII range). -/
def isPySpace (c : Char) : Bool :=
  c == ' ' || c == '\t' || c == '\n' || c == '\r' || c == '\x0b' || c == '\x0c'

/-- Helper for `pySplit`, accumulating the current token in reverse. -/
def pySplitAux : List Char → List Char → List (List Char)
  | [], acc => if acc = [] then [] else [acc.reverse]
  | c :: rest, acc =>
    if isPySpace c then
      if acc = [] then pySplitAux rest [] else acc.reverse :: pySplitAux rest []
    else pySplitAux rest (c :: acc)

/-- Python's `str.split()` with no argument: split on runs of whitespace,
discarding empty tokens. -/
def pySplit (cs : List Char) : List (List Char) := pySplitAux cs []

/-- Numeric value of a list of decimal digit characters. -/
def digitsVal (cs : List Char) : ℕ :=
  cs.foldl (fun a c => a * 10 + (c.toNat - 48)) 0

/-- Exponent suffix of a Python float literal: optional sign then digits. -/
def parseExp (cs : List Char) : Option ℚ :=
  match cs with
  | '+' :: r => if r ≠ [] ∧ r.all Char.isDigit then some ((10 : ℚ) ^ digitsVal r) else none
  | '-' :: r => if r ≠ [] ∧ r.all Char.isDigit then some (((10 : ℚ) ^ digitsVal r)⁻¹) else none
  | r => if r ≠ [] ∧ r.all Char.isDigit then some ((10 : ℚ) ^ digitsVal r) else none

/-- Unsigned part of Python's `float()` string conversion: digits with an
optional fraction and optional exponent. -/
def pyFloatCore (cs : List Char) : Option ℚ :=
  let intPart := cs.takeWhile Char.isDigit
  let rest1 := cs.dropWhile Char.isDigit
  match rest1 with
  | [] => if intPart = [] then none else some (digitsVal intPart : ℚ)
  | '.' :: rest2 =>
    let fracPart := rest2.takeWhile Char.isDigit
    let rest3 := rest2.dropWhile Char.isDigit
    if intPart = [] ∧ fracPart = [] then none
    else
      let m : ℚ := (digitsVal intPart : ℚ) + (digitsVal fracPart : ℚ) / (10 : ℚ) ^ fracPart.length
      match rest3 with
      | [] => some m
      | c :: rest4 => if c = 'e' ∨ c = 'E' then (parseExp rest4).map (fun ex => m * ex) else none
  | c :: rest4 =>
    if (c = 'e' ∨ c = 'E') ∧ intPart ≠ [] then
      (parseExp rest4).map (fun ex => (digitsVal intPart : ℚ) * ex)
    else none

/-- Python's `float()` on a token: optional sign then the unsigned core. -/
def pyFloat (cs : List Char) : Option ℚ :=
  match cs with
  | '+' :: r => pyFloatCore r
  | '-' :: r => (pyFloatCore r).map (fun q => -q)
  | r => pyFloatCore r

/-- The `get_svg_viewbox` function (`main.py` lines 21-30): find the first
textual viewBox attribute and parse its whitespace-separated numbers; the
`except (ValueError, IndexError)` clause turns any token-parse failure into
the "not found" result `none`. -/
def get_svg_viewbox (svg : List Char) : Option (List ℚ) :=
  match searchViewbox svg with
  | none => none
  | some content => (pySplit content).mapM pyFloat

/-- Affine transform record mirroring `fontTools.misc.transform.Transform`:
maps `(x, y)` to `(xx*x + yx*y + dx, xy*x + yy*y + dy)`. -/
structure Transform where
  xx : ℚ
  xy : ℚ
  yx : ℚ
  yy : ℚ
  dx : ℚ
  dy : ℚ
deriving DecidableEq

/-- Fallback transform returned by `calculate_transform` when the SVG has no
(truthy) viewBox (`main.py` lines 59-63). -/
def fallbackTransform (units_per_em advance_width : ℚ) : Transform :=
  let scale := (7/10) * units_per_em / 1000
  ⟨scale, 0, 0, -scale, (advance_width - 700) / 2, units_per_em * (45/100)⟩

/-- The `calculate_transform` function (`main.py` lines 32-63).  `none` models
an exception escaping the function: a `ZeroDivisionError` when a viewBox
dimension is zero, or the `ValueError` from unpacking a viewBox list whose
length is not four.  An empty parsed viewBox list is falsy in Python, so it
selects the fallback branch like `None` does. -/
def calculate_transform (svg : List Char) (units_per_em advance_width special_x : ℚ) :
    Option Transform :=
  match get_svg_viewbox svg with
  | none => some (fallbackTransform units_per_em advance_width)
  | some [] => some (fallbackTransform units_per_em advance_width)
  | some [x, y, width, height] =>
    if width = 0 ∨ height = 0 then none
    else
      let scale_factor := min (units_per_em / width) (units_per_em / height) * (7/10)
      let aw := if advance_width = 0 then units_per_em else advance_width
      let translate_x := ((aw - width) / 2 - x + special_x) * scale_factor
      let math_axis := units_per_em * (3/10)
      let svg_center_y := y + height / 2
      let translate_y := math_axis - svg_center_y * (-scale_factor)
      some ⟨scale_factor, 0, 0, -scale_factor, translate_x, translate_y⟩
  | some _ => none

/-- Hexadecimal digit value, as accepted by Python's `int(s, 16)`. -/
def hexDigit (c : Char) : Option ℕ :=
  if '0' ≤ c ∧ c ≤ '9' then some (c.toNat - 48)
  else if 'a' ≤ c ∧ c ≤ 'f' then some (c.toNat - 87)
  else if 'A' ≤ c ∧ c ≤ 'F' then some (c.toNat - 55)
  else none

/-- Value of a nonempty list of hex digit characters; `none` on any bad digit. -/
def parseHexDigits (cs : List Char) : Option ℕ :=
  if cs = [] then none
  else cs.foldlM (fun acc c => (hexDigit c).map (fun d => acc * 16 + d)) 0

/-- Python's `int(s, 16)`: optional sign, optional `0x` marker, hex digits;
`none` models the `ValueError` raised on a malformed string. -/
def pyIntHex (cs : List Char) : Option ℤ :=
  let p : ℤ × List Char :=
    match cs with
    | '+' :: r => (1, r)
    | '-' :: r => (-1, r)
    | r => (1, r)
  let body : List Char :=
    match p.2 with
    | '0' :: 'x' :: r => r
    | '0' :: 'X' :: r => r
    | r => r
  (parseHexDigits body).map (fun n => p.1 * n)

/-- One subtable of the font's cmap, with its `isUnicode()` classification. -/
structure CmapTable where
  isUnicode : Bool
  cmap : List (ℤ × String)
deriving DecidableEq

/-- Dictionary update on an association list: overwrite any prior entry for
the key. -/
def dictSet {β : Type} (m : List (String × β)) (k : String) (v : β) : List (String × β) :=
  m.filter (fun p => p.1 ≠ k) ++ [(k, v)]

/-- Setting `table.cmap[unicode_int] = glyph_name` on one cmap subtable. -/
def cmapSet (t : CmapTable) (k : ℤ) (v : String) : CmapTable :=
  ⟨t.isUnicode, t.cmap.filter (fun p => p.1 ≠ k) ++ [(k, v)]⟩

/-- The loop `for table in cmap_tables: table.cmap[unicode_int] = glyph_name`
(`main.py` lines 150-151): every Unicode subtable is updated in place. -/
def setUnicodeCmaps (ts : List CmapTable) (k : ℤ) (v : String) : List CmapTable :=
  ts.map (fun t => if t.isUnicode then cmapSet t k v else t)

/-- The font container: the tables this tool touches (`main.py` lines 75-97).
Glyph outlines are abstract tokens (`ℕ`), since their content is produced
entirely by the external library. -/
structure Font where
  unitsPerEm : ℕ
  glyf : List (String × ℕ)
  hmtx : List (String × (ℤ × ℤ))
  cmapTables : List CmapTable
  glyphOrder : List String
deriving DecidableEq

/-- Glyph-order update (`main.py` lines 143-146): append the name only if it
is not already present. -/
def updateGlyphOrder (order : List String) (name : String) : List String :=
  if name ∈ order then order else order ++ [name]

/-- One glyph insertion request, as one element of `svg_data_list`
(`svg_file_path, glyph_name, unicode_hex, advance_width, special_x`), together
with the outcomes of the external operations performed for it: whether the
SVG file exists, whether the read inside the `try` succeeds and what decoded
text it yields, whether `SVGPath.fromstring` succeeds on the cleaned text,
whether `svg_path.draw(pen)` succeeds, and the abstract outline the pen
produces. -/
structure Request where
  svgExists : Bool
  readOk : Bool
  svgContent : List Char
  fromstringOk : Bool
  drawOk : Bool
  glyphName : String
  unicodeHex : List Char
  advanceWidth : ℤ
  specialX : ℚ
  glyphData : ℕ
deriving DecidableEq

/-- Errors that escape `add_svg_glyphs_to_font` uncaught. -/
inductive Err where
  | noUnicodeCmap
  | drawFailed
  | hexInvalid
deriving DecidableEq

/-- The advance-width defaulting at `main.py` lines 109-110: a requested width
of `0` is replaced by `int(units_per_em * 0.6)` before anything else uses it. -/
def defaultedAdvance (upe : ℕ) (aw : ℤ) : ℤ :=
  if aw = 0 then pyInt ((upe : ℚ) * (6/10)) else aw

/-- The transform computed for a request by the pipeline (`main.py` line 122):
`calculate_transform` is called with the advance width that was already
defaulted at lines 109-110, not with the caller's raw request value. -/
def transform_for_request (upe : ℕ) (r : Request) : Option Transform :=
  calculate_transform r.svgContent (upe : ℚ) ((defaultedAdvance upe r.advanceWidth : ℤ) : ℚ)
    r.specialX

/-- Processing of one request, `main.py` lines 100-156.  Skips (missing file,
or any exception inside the `try` at lines 113-127: read failure,
`calculate_transform` raising, `fromstring` failure) return the font
unchanged.  `svg_path.draw(pen)` and `int(unicode_hex, 16)` sit outside the
`try`, so their failures are uncaught errors. -/
def processRequest (font : Font) (r : Request) : Except Err Font :=
  if ¬ r.svgExists then .ok font
  else
    let aw := defaultedAdvance font.unitsPerEm r.advanceWidth
    if ¬ r.readOk then .ok font
    else
      match transform_for_request font.unitsPerEm r with
      | none => .ok font
      | some _t =>
        if ¬ r.fromstringOk then .ok font
        else if ¬ r.drawOk then .error .drawFailed
        else
          let font1 : Font := { font with glyf := dictSet font.glyf r.glyphName r.glyphData }
          let font2 : Font := { font1 with glyphOrder := updateGlyphOrder font1.glyphOrder r.glyphName }
          match pyIntHex r.unicodeHex with
          | none => .error .hexInvalid
          | some u =>
            let font3 : Font := { font2 with cmapTables := setUnicodeCmaps font2.cmapTables u r.glyphName }
            let font4 : Font := { font3 with hmtx := dictSet font3.hmtx r.glyphName (aw, 0) }
            .ok font4

/-- The per-request loop of `add_svg_glyphs_to_font`: an uncaught error from
any request aborts the whole run. -/
def processAll (font : Font) : List Request → Except Err Font
  | [] => .ok font
  | r :: rest =>
    match processRequest font r with
    | .error e => .error e
    | .ok f => processAll f rest

/-- The `add_svg_glyphs_to_font` entry point (`main.py` lines 65-170): after
ensuring the outline/metrics tables exist, it raises `ValueError` when the
font has no Unicode cmap subtable (lines 90-92), before the request loop; an
`Except.ok` result models the mutated font being saved to the output path. -/
def add_svg_glyphs_to_font (font : Font) (reqs : List Request) : Except Err Font :=
  if font.cmapTables.filter (fun t => t.isUnicode) = [] then .error .noUnicodeCmap
  else processAll font reqs

/-- Observable output of a run: `some f` when the run reaches `font.save` and
writes the font `f`, `none` when it aborts with an uncaught error and writes
nothing. -/
def savedOutput (res : Except Err Font) : Option Font :=
  match res with
  | .ok f => some f
  | .error _ => none

/-! ## Concrete sample inputs -/

/-- Sample SVG text carrying a viewBox attribute. -/
def vbSvg : List Char := "<svg viewBox=\"0 0 100 100\"></svg>".toList

/-- Sample SVG text with no viewBox attribute. -/
def noVbSvg : List Char := "<svg></svg>".toList

/-! ## Helper lemmas -/

/-- Symbolic form of the viewBox branch of `calculate_transform`. -/
theorem calc_transform_viewbox_eq (svg : List Char) (x y w h upe aw xo : ℚ)
    (hvb : get_svg_viewbox svg = some [x, y, w, h]) (hw : w ≠ 0) (hh : h ≠ 0)
    (haw : aw ≠ 0) :
    calculate_transform svg upe aw xo =
      some ⟨min (upe / w) (upe / h) * (7/10), 0, 0, -(min (upe / w) (upe / h) * (7/10)),
        ((aw - w) / 2 - x + xo) * (min (upe / w) (upe / h) * (7/10)),
        upe * (3/10) - (y + h / 2) * (-(min (upe / w) (upe / h) * (7/10)))⟩ := by
  have hwh : ¬(w = 0 ∨ h = 0) := by push_neg; exact ⟨hw, hh⟩
  unfold calculate_transform
  rw [hvb]
  simp only [hwh, if_false, haw, ite_false]

/-- Symbolic form of the fallback branch of `calculate_transform`. -/
theorem calc_transform_fallback_eq (svg : List Char) (upe aw xo : ℚ)
    (hvb : get_svg_viewbox svg = none) :
    calculate_transform svg upe aw xo = some (fallbackTransform upe aw) := by
  unfold calculate_transform
  rw [hvb]

/-! ## C4: viewBox-branch transform formula -/

/-- C4: for every SVG whose extracted viewBox is `(x, y, w, h)` with
`w, h > 0`, and any positive `unitsPerEm` and nonzero requested advance
width, `calculate_transform` returns `(s, 0, 0, -s, tx, ty)` with
`s = min(unitsPerEm/w, unitsPerEm/h) * 0.7` strictly positive,
`tx = ((advanceWidth - w)/2 - x + xOffset) * s` and
`ty = unitsPerEm * 0.3 + (y + h/2) * s`. -/
theorem c4_viewbox_transform (svg : List Char) (x y w h upe aw xo : ℚ)
    (hvb : get_svg_viewbox svg = some [x, y, w, h]) (hw : 0 < w) (hh : 0 < h)
    (hupe : 0 < upe) (haw : aw ≠ 0) :
    calculate_transform svg upe aw xo =
      some ⟨min (upe / w) (upe / h) * (7/10), 0, 0, -(min (upe / w) (upe / h) * (7/10)),
        ((aw - w) / 2 - x + xo) * (min (upe / w) (upe / h) * (7/10)),
        upe * (3/10) + (y + h / 2) * (min (upe / w) (upe / h) * (7/10))⟩ ∧
      0 < min (upe / w) (upe / h) * (7/10) := by
  constructor
  · rw [calc_transform_viewbox_eq svg x y w h upe aw xo hvb hw.ne' hh.ne' haw]
    have hdy : upe * (3/10) - (y + h / 2) * (-(min (upe / w) (upe / h) * (7/10))) =
        upe * (3/10) + (y + h / 2) * (min (upe / w) (upe / h) * (7/10)) := by ring
    rw [hdy]
  · exact mul_pos (lt_min (div_pos hupe hw) (div_pos hupe hh)) (by norm_num)

/-- Witness for C4 at the spec's concrete test vector: `unitsPerEm = 1000`,
`advanceWidth = 600`, viewBox `(0, 0, 100, 100)`, `xOffset = 0` yields the
transform `(7, 0, 0, -7, 1750, 650)`. -/
theorem c4_witness :
    get_svg_viewbox vbSvg = some [0, 0, 100, 100] ∧
    calculate_transform vbSvg 1000 600 0 = some ⟨7, 0, 0, -7, 1750, 650⟩ ∧
    (0 : ℚ) < 7 := by
  have h := c4_viewbox_transform vbSvg 0 0 100 100 1000 600 0 (by decide)
    (by norm_num) (by norm_num) (by norm_num) (by norm_num)
  refine ⟨by decide, ?_, ?_⟩
  · rw [h.1]
    norm_num [Transform.mk.injEq]
  · have := h.2
    norm_num at this ⊢

/-! ## C5: fallback transform formula -/

/-- C5: for every SVG whose viewBox extraction yields nothing,
`calculate_transform` returns `(s, 0, 0, -s, tx, ty)` with
`s = 0.7 * unitsPerEm / 1000`, `tx = (advanceWidth - 700)/2` (the x-offset
is not applied and `tx` is not scaled by `s`) and `ty = unitsPerEm * 0.45`. -/
theorem c5_fallback_transform (svg : List Char) (upe aw xo : ℚ)
    (hvb : get_svg_viewbox svg = none) :
    calculate_transform svg upe aw xo =
      some ⟨(7/10) * upe / 1000, 0, 0, -((7/10) * upe / 1000),
        (aw - 700) / 2, upe * (45/100)⟩ := by
  rw [calc_transform_fallback_eq svg upe aw xo hvb]
  rfl

/-- Witness for C5: with no viewBox, `unitsPerEm = 1000`, `advanceWidth = 600`
and a nonzero x-offset of 3, the result is scale `0.7`, `tx = -50` (offset
ignored, unscaled) and `ty = 450`. -/
theorem c5_witness :
    get_svg_viewbox noVbSvg = none ∧
    calculate_transform noVbSvg 1000 600 3 =
      some ⟨7/10, 0, 0, -(7/10), -50, 450⟩ := by
  refine ⟨by decide, ?_⟩
  rw [c5_fallback_transform noVbSvg 1000 600 3 (by decide)]
  norm_num [Transform.mk.injEq]

/-! ## C6: pure flip, no shear -/

/-- C6: for every input on which `calculate_transform` returns a transform at
all, the skew components are exactly 0 and the Y-scale is the negation of the
X-scale. -/
theorem c6_pure_flip (svg : List Char) (upe aw xo : ℚ) (t : Transform)
    (ht : calculate_transform svg upe aw xo = some t) :
    t.xy = 0 ∧ t.yx = 0 ∧ t.yy = -t.xx := by
  unfold calculate_transform at ht
  split at ht
  · injection ht with ht
    subst ht
    simp [fallbackTransform]
  · injection ht with ht
    subst ht
    simp [fallbackTransform]
  · split at ht
    · exact Option.noConfusion ht
    · injection ht with ht
      subst ht
      exact ⟨rfl, rfl, rfl⟩
  · exact Option.noConfusion ht

/-- Witness for C6, instantiated at the concrete fallback transform for
`unitsPerEm = 1000`, `advanceWidth = 600`. -/
theorem c6_witness :
    (fallbackTransform 1000 600).xy = 0 ∧ (fallbackTransform 1000 600).yx = 0 ∧
    (fallbackTransform 1000 600).yy = -(fallbackTransform 1000 600).xx :=
  c6_pure_flip noVbSvg 1000 600 0 (fallbackTransform 1000 600)
    (calc_transform_fallback_eq noVbSvg 1000 600 0 (by decide))

/-! ## C8: viewBox extraction contract -/

/-- C8: viewBox extraction takes the first textual viewBox attribute match
(a match at the current scan position wins immediately) and parses its
whitespace-separated numbers; it returns the "not found" result `none`
(rather than raising) when no attribute is present or when parsing any of
the four numbers fails, and `some (minX, minY, width, height)` when all four
parse. -/
theorem c8_viewbox_extraction (s : List Char) :
    (searchViewbox s = none → get_svg_viewbox s = none) ∧
    (∀ c rest content, s = c :: rest → matchViewboxAt (c :: rest) = some content →
      searchViewbox s = some content) ∧
    (∀ content, searchViewbox s = some content →
      ((pySplit content).mapM pyFloat = none → get_svg_viewbox s = none) ∧
      (∀ x y w h : ℚ, (pySplit content).mapM pyFloat = some [x, y, w, h] →
        get_svg_viewbox s = some [x, y, w, h])) := by
  refine ⟨?_, ?_, ?_⟩
  · intro hnone
    unfold get_svg_viewbox
    rw [hnone]
  · intro c rest content hs hm
    subst hs
    unfold searchViewbox
    rw [hm]
  · intro content hsome
    constructor
    · intro hp
      unfold get_svg_viewbox
      rw [hsome]
      exact hp
    · intro x y w h hp
      unfold get_svg_viewbox
      rw [hsome]
      exact hp

/-- Witness for C8: on the sample SVG the first viewBox attribute content is
`0 0 100 100`, whose four numbers parse, and extraction returns them. -/
theorem c8_witness : get_svg_viewbox vbSvg = some [0, 0, 100, 100] ∧ (0 : ℚ) ≠ 1 := by
  have h := (c8_viewbox_extraction vbSvg).2.2 ("0 0 100 100".toList) (by decide)
  exact ⟨h.2 0 0 100 100 (by decide), by norm_num⟩

/-! ## Pipeline helper lemmas -/

/-- Unfolding equation for one step of the request loop. -/
theorem processAll_cons (font : Font) (r : Request) (rest : List Request) :
    processAll font (r :: rest) =
      match processRequest font r with
      | .error e => .error e
      | .ok f => processAll f rest := rfl

/-- Shape of the font after a fully successful request: outline written,
glyph order updated, every Unicode cmap updated, metrics set to the
(possibly defaulted) advance width with left side bearing 0. -/
theorem processRequest_success_eq (font : Font) (r : Request)
    (h1 : r.svgExists = true) (h2 : r.readOk = true) (h3 : r.fromstringOk = true)
    (h4 : r.drawOk = true) (t : Transform)
    (ht : transform_for_request font.unitsPerEm r = some t)
    (u : ℤ) (hu : pyIntHex r.unicodeHex = some u) :
    processRequest font r = .ok
      { unitsPerEm := font.unitsPerEm,
        glyf := dictSet font.glyf r.glyphName r.glyphData,
        hmtx := dictSet font.hmtx r.glyphName
          (defaultedAdvance font.unitsPerEm r.advanceWidth, 0),
        cmapTables := setUnicodeCmaps font.cmapTables u r.glyphName,
        glyphOrder := updateGlyphOrder font.glyphOrder r.glyphName } := by
  unfold processRequest
  rw [h1, h2, ht, h3, h4, hu]
  rfl

/-- A request whose read fails inside the `try` is skipped. -/
theorem processRequest_skip_read (font : Font) (r : Request)
    (h1 : r.svgExists = true) (h2 : r.readOk = false) :
    processRequest font r = .ok font := by
  unfold processRequest
  rw [h1, h2]
  rfl

/-- A request whose transform computation raises is skipped. -/
theorem processRequest_skip_transform (font : Font) (r : Request)
    (h1 : r.svgExists = true) (ht : transform_for_request font.unitsPerEm r = none) :
    processRequest font r = .ok font := by
  unfold processRequest
  rw [h1, ht]
  cases hr : r.readOk <;> simp

/-- A request on which `SVGPath.fromstring` raises is skipped. -/
theorem processRequest_skip_fromstring (font : Font) (r : Request)
    (h1 : r.svgExists = true) (h3 : r.fromstringOk = false) :
    processRequest font r = .ok font := by
  unfold processRequest
  rw [h1, h3]
  cases hr : r.readOk
  · simp
  · cases ht : transform_for_request font.unitsPerEm r <;> simp

/-- A request on which `svg_path.draw(pen)` raises produces an uncaught error:
the call sits outside the `try` block. -/
theorem processRequest_draw_error (font : Font) (r : Request)
    (h1 : r.svgExists = true) (h2 : r.readOk = true) (h3 : r.fromstringOk = true)
    (h4 : r.drawOk = false) (ht : transform_for_request font.unitsPerEm r ≠ none) :
    processRequest font r = .error .drawFailed := by
  obtain ⟨t, ht'⟩ := Option.ne_none_iff_exists'.mp ht
  unfold processRequest
  rw [h1, h2, ht', h3, h4]
  rfl

/-- A request whose code-point hex string does not parse produces an uncaught
error after its outline and glyph order were already updated. -/
theorem processRequest_hex_error (font : Font) (r : Request)
    (h1 : r.svgExists = true) (h2 : r.readOk = true) (h3 : r.fromstringOk = true)
    (h4 : r.drawOk = true) (ht : transform_for_request font.unitsPerEm r ≠ none)
    (hu : pyIntHex r.unicodeHex = none) :
    processRequest font r = .error .hexInvalid := by
  obtain ⟨t, ht'⟩ := Option.ne_none_iff_exists'.mp ht
  unfold processRequest
  rw [h1, h2, ht', h3, h4, hu]
  rfl

/-- Processing a request never changes the font's units-per-em. -/
theorem processRequest_upe (font : Font) (r : Request) (f : Font)
    (h : processRequest font r = .ok f) : f.unitsPerEm = font.unitsPerEm := by
  unfold processRequest at h
  repeat' split at h
  all_goals (try exact Except.noConfusion h)
  all_goals (injection h with h; subst h; rfl)

/-- If a fixed request errs on every font with a given units-per-em, any batch
containing it (preceded and followed by anything) aborts with an error. -/
theorem processAll_aborts (r : Request) (upe : ℕ)
    (habort : ∀ f : Font, f.unitsPerEm = upe → ∃ e, processRequest f r = .error e) :
    ∀ (pre : List Request) (post : List Request) (font : Font), font.unitsPerEm = upe →
      ∃ e, processAll font (pre ++ r :: post) = .error e := by
  intro pre
  induction pre with
  | nil =>
    intro post font hupe
    obtain ⟨e, he⟩ := habort font hupe
    refine ⟨e, ?_⟩
    rw [List.nil_append, processAll_cons, he]
  | cons q pre ih =>
    intro post font hupe
    cases hq : processRequest font q with
    | error e =>
      refine ⟨e, ?_⟩
      rw [List.cons_append, processAll_cons, hq]
    | ok f1 =>
      obtain ⟨e, he⟩ := ih post f1 ((processRequest_upe font q f1 hq).trans hupe)
      refine ⟨e, ?_⟩
      rw [List.cons_append, processAll_cons, hq]
      exact he

/-- Looking up a key just written by a dictionary update returns its value. -/
theorem lookup_dictSet {β : Type} (m : List (String × β)) (k : String) (v : β) :
    (dictSet m k v).lookup k = some v := by
  induction m with
  | nil => simp [dictSet, List.lookup]
  | cons a m ih =>
    by_cases hk : a.1 = k
    · simpa [dictSet, List.filter_cons, hk] using ih
    · have : dictSet (a :: m) k v = a :: dictSet m k v := by
        simp [dictSet, List.filter_cons, hk]
      rw [this]
      have hne : (k == a.1) = false := by
        simp [beq_eq_false_iff_ne]
        exact fun he => hk he.symm
      calc (a :: dictSet m k v).lookup k = (dictSet m k v).lookup k := by
            rcases a with ⟨a1, a2⟩
            simp [List.lookup, hne]
        _ = some v := ih

/-! ## C7: missing Unicode cmap is fatal and up-front -/

/-- C7: if the input font has no Unicode cmap subtable, the run fails with
the up-front error no matter what the request batch is — identically to the
empty batch — so no glyph insertion request is processed and no per-glyph
mutation occurs. -/
theorem c7_missing_cmap_fatal (font : Font) (reqs : List Request)
    (h : font.cmapTables.filter (fun t => t.isUnicode) = []) :
    add_svg_glyphs_to_font font reqs = .error .noUnicodeCmap ∧
    add_svg_glyphs_to_font font reqs = add_svg_glyphs_to_font font [] := by
  unfold add_svg_glyphs_to_font
  simp only [if_pos h]
  exact ⟨trivial, trivial⟩

/-- Font with a single non-Unicode cmap subtable, for the C7 witness. -/
def c7Font : Font := ⟨1000, [], [], [⟨false, []⟩], []⟩

/-- Request used by the C7 witness. -/
def c7Req : Request := ⟨true, true, noVbSvg, true, true, "g7", "41".toList, 600, 0, 0⟩

/-- Witness for C7 at a concrete font with only a non-Unicode cmap subtable. -/
theorem c7_witness :
    add_svg_glyphs_to_font c7Font [c7Req] = .error .noUnicodeCmap ∧
    add_svg_glyphs_to_font c7Font [c7Req] = add_svg_glyphs_to_font c7Font [] :=
  c7_missing_cmap_fatal c7Font [c7Req] (by decide)

/-! ## C9: glyph-order update is idempotent -/

/-- C9: a processed request changes the glyph ordering only through
`updateGlyphOrder`, which appends the glyph name only if it is not already
present; hence inserting the same name twice leaves exactly one occurrence. -/
theorem c9_glyph_order_idempotent :
    (∀ (font : Font) (r : Request) (f : Font), processRequest font r = .ok f →
      f.glyphOrder = font.glyphOrder ∨
      f.glyphOrder = updateGlyphOrder font.glyphOrder r.glyphName) ∧
    (∀ (order : List String) (name : String), name ∉ order →
      updateGlyphOrder (updateGlyphOrder order name) name = updateGlyphOrder order name ∧
      (updateGlyphOrder (updateGlyphOrder order name) name).count name = 1) := by
  constructor
  · intro font r f h
    unfold processRequest at h
    repeat' split at h
    all_goals (try exact Except.noConfusion h)
    all_goals (injection h with h; subst h)
    · exact Or.inl rfl
    · exact Or.inl rfl
    · exact Or.inl rfl
    · exact Or.inl rfl
    · exact Or.inr rfl
  · intro order name hmem
    have h1 : updateGlyphOrder order name = order ++ [name] := by
      unfold updateGlyphOrder
      rw [if_neg hmem]
    have hin : name ∈ order ++ [name] := by simp
    have h2 : updateGlyphOrder (order ++ [name]) name = order ++ [name] := by
      unfold updateGlyphOrder
      rw [if_pos hin]
    refine ⟨by rw [h1, h2], ?_⟩
    rw [h1, h2, List.count_append]
    simp [List.count_eq_zero.mpr hmem]

/-- Witness for C9: inserting `"g"` twice into an ordering that lacks it
leaves exactly one occurrence. -/
theorem c9_witness :
    updateGlyphOrder (updateGlyphOrder ["a"] "g") "g" = updateGlyphOrder ["a"] "g" ∧
    (updateGlyphOrder (updateGlyphOrder ["a"] "g") "g").count "g" = 1 :=
  c9_glyph_order_idempotent.2 ["a"] "g" (by decide)

/-! ## C1: effective centering width for zero advance-width requests -/

/-- Request with requested advance width 0 and a viewBox SVG, for C1. -/
def c1Req : Request := ⟨true, true, vbSvg, true, true, "g1", "41".toList, 0, 0, 0⟩

/-- Counterexample to C1 as stated: in the pipeline, a request with requested
advance width 0 has its transform centering computed with the already
defaulted metrics width `int(unitsPerEm * 0.6) = 600` (giving `tx = 1750` at
`unitsPerEm = 1000`, viewBox `(0,0,100,100)`), not with `unitsPerEm = 1000`
as the claim asserts (which would give `tx = 3150`). -/
theorem c1_counterexample :
    ((defaultedAdvance 1000 0 : ℤ) : ℚ) = 600 ∧
    transform_for_request 1000 c1Req = some ⟨7, 0, 0, -7, 1750, 650⟩ ∧
    calculate_transform vbSvg 1000 1000 0 = some ⟨7, 0, 0, -7, 3150, 650⟩ ∧
    (1750 : ℚ) ≠ 3150 := by
  have hda : ((defaultedAdvance 1000 0 : ℤ) : ℚ) = 600 := by
    norm_num [defaultedAdvance, pyInt]
  refine ⟨hda, ?_, ?_, by norm_num⟩
  · show calculate_transform vbSvg ((1000 : ℕ) : ℚ) ((defaultedAdvance 1000 0 : ℤ) : ℚ) 0 =
      some ⟨7, 0, 0, -7, 1750, 650⟩
    rw [hda,
      calc_transform_viewbox_eq vbSvg 0 0 100 100 ((1000 : ℕ) : ℚ) 600 0 (by decide)
        (by norm_num) (by norm_num) (by norm_num)]
    norm_num [Transform.mk.injEq]
  · rw [calc_transform_viewbox_eq vbSvg 0 0 100 100 1000 1000 0 (by decide)
      (by norm_num) (by norm_num) (by norm_num)]
    norm_num [Transform.mk.injEq]

/-- C1 amended: for a request with requested advance width 0 (and
`unitsPerEm ≥ 2`, so the default is nonzero), the metrics defaulting
`int(unitsPerEm * 0.6)` is applied before the transform call, so the tx
centering uses that same defaulted width — the effective centering width and
the stored metrics width coincide rather than being independent. -/
theorem c1_centering_uses_stored_default (upe : ℕ) (r : Request) (x y w h : ℚ)
    (haw : r.advanceWidth = 0) (hupe : 2 ≤ upe)
    (hvb : get_svg_viewbox r.svgContent = some [x, y, w, h]) (hw : w ≠ 0) (hh : h ≠ 0) :
    defaultedAdvance upe r.advanceWidth = pyInt ((upe : ℚ) * (6/10)) ∧
    transform_for_request upe r =
      some ⟨min ((upe : ℚ) / w) ((upe : ℚ) / h) * (7/10), 0, 0,
        -(min ((upe : ℚ) / w) ((upe : ℚ) / h) * (7/10)),
        ((((pyInt ((upe : ℚ) * (6/10)) : ℤ) : ℚ) - w) / 2 - x + r.specialX) *
          (min ((upe : ℚ) / w) ((upe : ℚ) / h) * (7/10)),
        (upe : ℚ) * (3/10) - (y + h / 2) *
          (-(min ((upe : ℚ) / w) ((upe : ℚ) / h) * (7/10)))⟩ := by
  have hda : defaultedAdvance upe r.advanceWidth = pyInt ((upe : ℚ) * (6/10)) := by
    unfold defaultedAdvance
    rw [if_pos haw]
  have h1 : (1 : ℤ) ≤ pyInt ((upe : ℚ) * (6/10)) := by
    unfold pyInt
    rw [if_pos (by positivity), Int.le_floor]
    have h2 : (2 : ℚ) ≤ (upe : ℚ) := by exact_mod_cast hupe
    push_cast
    nlinarith
  have hne : ((pyInt ((upe : ℚ) * (6/10)) : ℤ) : ℚ) ≠ 0 := by
    have : (0 : ℚ) < ((pyInt ((upe : ℚ) * (6/10)) : ℤ) : ℚ) := by
      exact_mod_cast lt_of_lt_of_le zero_lt_one h1
    exact this.ne'
  refine ⟨hda, ?_⟩
  unfold transform_for_request
  rw [hda]
  exact calc_transform_viewbox_eq r.svgContent x y w h ((upe : ℕ) : ℚ) _ r.specialX
    hvb hw hh hne

/-- Witness for the amended C1 at `unitsPerEm = 1000`: the pipeline transform
for a zero-advance request centers with width 600 (`tx = 1750`). -/
theorem c1_witness :
    defaultedAdvance 1000 0 = pyInt ((1000 : ℚ) * (6/10)) ∧
    transform_for_request 1000 c1Req = some ⟨7, 0, 0, -7, 1750, 650⟩ := by
  have h := c1_centering_uses_stored_default 1000 c1Req 0 0 100 100 rfl (by norm_num)
    (by decide) (by norm_num) (by norm_num)
  refine ⟨h.1, ?_⟩
  rw [h.2]
  norm_num [c1Req, pyInt, Transform.mk.injEq]

/-! ## C2: which per-glyph failures are caught -/

/-- Font with one Unicode cmap subtable, used by the C2 theorems. -/
def c2Font : Font := ⟨1000, [], [], [⟨true, []⟩], []⟩

/-- Request whose outline-drawing step fails, for the C2 counterexample. -/
def c2DrawFailReq : Request := ⟨true, true, noVbSvg, true, false, "bad2", "41".toList, 600, 0, 0⟩

/-- Valid request following the failing one, for the C2 counterexample. -/
def c2GoodReq : Request := ⟨true, true, noVbSvg, true, true, "good2", "42".toList, 600, 0, 0⟩

/-- Counterexample to C2 as stated: a failure while producing the outline
(`svg_path.draw(pen)` raising, e.g. on malformed path data in the `d`
attribute, which the SVG library parses during `draw`) happens outside the
`try` block, so the whole run aborts with an uncaught error, the following
valid request is never processed, and no output font is written. -/
theorem c2_counterexample :
    add_svg_glyphs_to_font c2Font [c2DrawFailReq, c2GoodReq] = .error .drawFailed ∧
    savedOutput (add_svg_glyphs_to_font c2Font [c2DrawFailReq, c2GoodReq]) = none := by
  have ht : transform_for_request c2Font.unitsPerEm c2DrawFailReq ≠ none := by
    rw [show transform_for_request c2Font.unitsPerEm c2DrawFailReq =
        some (fallbackTransform _ _) from calc_transform_fallback_eq _ _ _ _ (by decide)]
    exact Option.some_ne_none _
  have he : processRequest c2Font c2DrawFailReq = .error .drawFailed :=
    processRequest_draw_error c2Font c2DrawFailReq rfl rfl rfl rfl ht
  have hb : add_svg_glyphs_to_font c2Font [c2DrawFailReq, c2GoodReq] = .error .drawFailed := by
    unfold add_svg_glyphs_to_font
    rw [if_neg (by decide), processAll_cons, he]
  exact ⟨hb, by rw [hb]; rfl⟩

/-- C2 amended: exceptions raised inside the `try` block — during file
reading, transform computation (including SVG cleanup/viewBox handling), or
the `SVGPath.fromstring` XML parse — are caught per glyph: the request is
skipped, the font is unchanged, and the batch continues with the remaining
requests exactly as if the request were absent.  (Failures raised while
drawing the outline are not covered: they abort the run, see the
counterexample.) -/
theorem c2_try_scope (font : Font) (r : Request) (rest : List Request)
    (hx : r.svgExists = true)
    (hfail : r.readOk = false ∨ transform_for_request font.unitsPerEm r = none ∨
      r.fromstringOk = false) :
    processRequest font r = .ok font ∧
    processAll font (r :: rest) = processAll font rest := by
  have hskip : processRequest font r = .ok font := by
    rcases hfail with hf | hf | hf
    · exact processRequest_skip_read font r hx hf
    · exact processRequest_skip_transform font r hx hf
    · exact processRequest_skip_fromstring font r hx hf
  exact ⟨hskip, by rw [processAll_cons, hskip]⟩

/-- Request whose XML parse (`fromstring`) fails, for the C2 witness. -/
def c2ParseFailReq : Request := ⟨true, true, noVbSvg, false, true, "pf2", "41".toList, 600, 0, 0⟩

/-- Witness for the amended C2: a request whose XML parse fails is skipped and
the batch continues unchanged. -/
theorem c2_witness :
    processRequest c2Font c2ParseFailReq = .ok c2Font ∧
    processAll c2Font [c2ParseFailReq] = processAll c2Font [] :=
  c2_try_scope c2Font c2ParseFailReq [] rfl (Or.inr (Or.inr rfl))

/-! ## C3: stored advance width for zero requests -/

/-- Font with `unitsPerEm = 1001`, on which `int` and `round` differ. -/
def c3Font : Font := ⟨1001, [], [], [⟨true, []⟩], []⟩

/-- Request with requested advance width 0, for C3. -/
def c3Req : Request := ⟨true, true, noVbSvg, true, true, "g3", "41".toList, 0, 0, 5⟩

/-- Counterexample to C3 as stated: at `unitsPerEm = 1001` the pipeline
stores advance width `int(1001 * 0.6) = 600` (truncation), whereas
`round(1001 * 0.6) = 601`. -/
theorem c3_counterexample :
    processRequest c3Font c3Req =
      .ok ⟨1001, [("g3", 5)], [("g3", (600, 0))], [⟨true, [(65, "g3")]⟩], ["g3"]⟩ ∧
    round ((1001 : ℚ) * (6/10)) = 601 ∧ (600 : ℤ) ≠ 601 := by
  have ht : transform_for_request c3Font.unitsPerEm c3Req =
      some (fallbackTransform ((1001 : ℕ) : ℚ) ((defaultedAdvance 1001 0 : ℤ) : ℚ)) :=
    calc_transform_fallback_eq _ _ _ _ (by decide)
  have hs := processRequest_success_eq c3Font c3Req rfl rfl rfl rfl _ ht 65 (by decide)
  have hda : defaultedAdvance c3Font.unitsPerEm c3Req.advanceWidth = 600 := by
    norm_num [c3Font, c3Req, defaultedAdvance, pyInt]
  refine ⟨?_, by rw [round_eq]; norm_num, by norm_num⟩
  rw [hs, hda]
  congr 1

/-- C3 amended: for every request with requested advance width 0 that is
processed to completion, the advance width stored in the metrics table is the
truncation `int(unitsPerEm * 0.6)`, which for positive `unitsPerEm` is
`⌊unitsPerEm * 0.6⌋` — not the nearest integer. -/
theorem c3_stored_width_truncates (font : Font) (r : Request)
    (h1 : r.svgExists = true) (h2 : r.readOk = true) (h3 : r.fromstringOk = true)
    (h4 : r.drawOk = true) (haw : r.advanceWidth = 0)
    (t : Transform) (ht : transform_for_request font.unitsPerEm r = some t)
    (u : ℤ) (hu : pyIntHex r.unicodeHex = some u) :
    pyInt ((font.unitsPerEm : ℚ) * (6/10)) = ⌊(font.unitsPerEm : ℚ) * (6/10)⌋ ∧
    ∃ f, processRequest font r = .ok f ∧
      f.hmtx.lookup r.glyphName = some (⌊(font.unitsPerEm : ℚ) * (6/10)⌋, 0) := by
  have hfloor : pyInt ((font.unitsPerEm : ℚ) * (6/10)) = ⌊(font.unitsPerEm : ℚ) * (6/10)⌋ := by
    unfold pyInt
    rw [if_pos (by positivity)]
  refine ⟨hfloor, _, processRequest_success_eq font r h1 h2 h3 h4 t ht u hu, ?_⟩
  show (dictSet font.hmtx r.glyphName
      (defaultedAdvance font.unitsPerEm r.advanceWidth, 0)).lookup r.glyphName =
    some (⌊(font.unitsPerEm : ℚ) * (6/10)⌋, 0)
  have hda : defaultedAdvance font.unitsPerEm r.advanceWidth =
      ⌊(font.unitsPerEm : ℚ) * (6/10)⌋ := by
    unfold defaultedAdvance
    rw [if_pos haw, hfloor]
  rw [hda]
  exact lookup_dictSet font.hmtx r.glyphName _

/-- Witness for the amended C3 at `unitsPerEm = 1001`: the stored metrics
entry is the floor value 600. -/
theorem c3_witness :
    (processRequest c3Font c3Req).toOption.map
      (fun f => f.hmtx.lookup c3Req.glyphName) =
    some (some (⌊(c3Font.unitsPerEm : ℚ) * (6/10)⌋, 0)) := by
  have ht : transform_for_request c3Font.unitsPerEm c3Req =
      some (fallbackTransform ((1001 : ℕ) : ℚ) ((defaultedAdvance 1001 0 : ℤ) : ℚ)) :=
    calc_transform_fallback_eq _ _ _ _ (by decide)
  obtain ⟨-, f, hf, hl⟩ := c3_stored_width_truncates c3Font c3Req rfl rfl rfl rfl rfl
    _ ht 65 (by decide)
  rw [hf]
  simp [Except.toOption, hl]

/-! ## C10: malformed code-point hex aborts the run unsaved -/

/-- C10: if any request in the batch reaches the code-point conversion (its
file exists and its read, parse and draw steps succeed) but its hex string is
malformed, the run aborts with an uncaught error and no output font file is
written: the in-memory mutations from all previously successful requests are
discarded. -/
theorem c10_bad_hex_aborts (font : Font) (pre post : List Request) (r : Request)
    (h1 : r.svgExists = true) (h2 : r.readOk = true) (h3 : r.fromstringOk = true)
    (h4 : r.drawOk = true)
    (ht : transform_for_request font.unitsPerEm r ≠ none)
    (hu : pyIntHex r.unicodeHex = none) :
    savedOutput (add_svg_glyphs_to_font font (pre ++ r :: post)) = none := by
  unfold add_svg_glyphs_to_font
  by_cases hc : font.cmapTables.filter (fun t => t.isUnicode) = []
  · rw [if_pos hc]
    rfl
  · rw [if_neg hc]
    obtain ⟨e, he⟩ := processAll_aborts r font.unitsPerEm
      (fun f hf => ⟨.hexInvalid,
        processRequest_hex_error f r h1 h2 h3 h4 (by rw [hf]; exact ht) hu⟩)
      pre post font rfl
    rw [he]
    rfl

/-- Font for the C10 witness. -/
def c10Font : Font := ⟨1000, [], [], [⟨true, []⟩], []⟩

/-- Valid request preceding the malformed one, for the C10 witness. -/
def c10GoodReq : Request := ⟨true, true, noVbSvg, true, true, "good10", "41".toList, 600, 0, 0⟩

/-- Request with malformed code-point hex `XYZ`, for the C10 witness. -/
def c10BadReq : Request := ⟨true, true, noVbSvg, true, true, "bad10", "XYZ".toList, 600, 0, 0⟩

/-- Witness for C10: a batch with one successful request followed by one with
malformed hex writes no output font. -/
theorem c10_witness :
    savedOutput (add_svg_glyphs_to_font c10Font [c10GoodReq, c10BadReq]) = none :=
  c10_bad_hex_aborts c10Font [c10GoodReq] [] c10BadReq rfl rfl rfl rfl
    (by
      rw [show transform_for_request c10Font.unitsPerEm c10BadReq =
          some (fallbackTransform _ _) from calc_transform_fallback_eq _ _ _ _ (by decide)]
      exact Option.some_ne_none _)
    (by decide)
